import Mathlib

/-!
Verification of the tadata-typescript-sdk request/response contract layer.

The development shallowly embeds the SDK's hard core:
* a `JsVal` type for JavaScript/JSON runtime values, with the JavaScript
  notions of `typeof x === 'object'`, truthiness and property access;
* the domain-error taxonomy of `src/errors/index.ts` (`SdkError`);
* the retry classification of `src/errors/error-codes.ts` (`isRetryableError`);
* the transport adapter of `src/contract/client.ts` (`apiFetcher`), driven by
  the outcome of its single axios request (`AxiosOutcome`);
* the response-envelope and error schemas of `src/http/schemas`
  (`parseApiResponse`, `apiErrorBodyOk`);
* the contract declaration of `src/http/contracts/deployments.contract.ts`
  (`upsertFromOpenApi`);
* the OpenAPI structural validation of `src/openapi/openapi-source.ts`
  (`validateOpenApiSpec`, `fromObject`);
* the resource facade `McpResource.deploy` of
  `src/resources/mcp/mcp-resource.ts` (`deployHandleBody`, `deployCatch`,
  `deployRun`).
-/

/-- A JavaScript/JSON runtime value. `null` models both the JSON null and, at
property-lookup sites, the places where the source would see `undefined`
(lookup returning `none` models `undefined`). -/
inductive JsVal where
  | null
  | bool (b : Bool)
  | num (n : Int)
  | str (s : String)
  | arr (elems : List JsVal)
  | obj (fields : List (String × JsVal))

/-- JavaScript `typeof v === 'object'`: true for `null`, arrays and plain
objects; false for booleans, numbers and strings. -/
def JsVal.typeofObject : JsVal → Bool
  | .null => true
  | .arr _ => true
  | .obj _ => true
  | _ => false

def JsVal.isNull : JsVal → Bool
  | .null => true
  | _ => false

def JsVal.isPlainObject : JsVal → Bool
  | .obj _ => true
  | _ => false

/-- JavaScript truthiness of a value. -/
def JsVal.truthy : JsVal → Bool
  | .null => false
  | .bool b => b
  | .num n => n != 0
  | .str s => !(s = "")
  | .arr _ => true
  | .obj _ => true

/-- Property access `v[k]` for our string keys: a value when `v` is a plain
object carrying the key, `none` (JavaScript `undefined`) otherwise. -/
def jsProp (v : JsVal) (k : String) : Option JsVal :=
  match v with
  | .obj fields => fields.lookup k
  | _ => none

/-- JavaScript `k in v` for a plain object (false on primitives and on arrays
for the non-index keys used here). -/
def jsHasKey (v : JsVal) (k : String) : Bool :=
  (jsProp v k).isSome

/-- The string value of a property when it is a string, `none` otherwise
(including when absent). -/
def jsStrProp (v : JsVal) (k : String) : Option String :=
  match jsProp v k with
  | some (.str s) => some s
  | _ => none

/-- JavaScript `x || dflt` for a string-typed optional field: the empty string
is falsy, so it also falls through to the default. (The wire schemas type the
fields this is applied to as strings.) -/
def jsStrOr (v : Option String) (dflt : String) : String :=
  match v with
  | some s => if s = "" then dflt else s
  | none => dflt

/-- The exception raised by the underlying HTTP client (axios): either an
error response was received (`AxiosError` with `response` set) or the request
got no response at all. -/
inductive TransportExn where
  | noResponse (detail : String)
  | httpResponse (status : Nat) (body : JsVal)

/-- The domain-error taxonomy of `src/errors/index.ts`, plus `rawError` for a
plain JavaScript `Error`/`TypeError` that is none of the typed classes.
Constructor fields mirror the class constructors:
`SpecInvalidError(message, details?, cause?)` (its cause can itself be a
domain error, as in the facade's re-classification), `AuthError(message,
cause?)`, `ApiError(message, statusCode, body?, cause?)`,
`NetworkError(message, cause?)`. -/
inductive SdkError where
  | specInvalid (message : String) (details : Option JsVal) (cause : Option SdkError)
  | auth (message : String) (cause : Option TransportExn)
  | api (message : String) (statusCode : Nat) (body : Option JsVal) (cause : Option TransportExn)
  | network (message : String) (cause : Option TransportExn)
  | rawError (message : String)

/-- The `code` string fixed by each error-class constructor in
`src/errors/index.ts` (`none` for a raw error, which has no such field). -/
def SdkError.code : SdkError → Option String
  | .specInvalid .. => some "spec_invalid"
  | .auth .. => some "auth_error"
  | .api .. => some "api_error"
  | .network .. => some "network_error"
  | .rawError _ => none

/-- The `statusCode` fixed by each error-class constructor:
`SpecInvalidError` hardcodes 400, `AuthError` hardcodes 401, `ApiError`
carries the response status, `NetworkError` leaves it undefined. -/
def SdkError.statusCode : SdkError → Option Nat
  | .specInvalid .. => some 400
  | .auth .. => some 401
  | .api _ s _ _ => some s
  | .network .. => none
  | .rawError _ => none

/-- Whether the thrown value is one of the typed domain-error classes
(`instanceof TadataError`), as opposed to a raw `Error`. -/
def SdkError.isTypedDomainError : SdkError → Bool
  | .rawError _ => false
  | _ => true

def SdkError.isSpecInvalid : SdkError → Bool
  | .specInvalid .. => true
  | _ => false

/-- `details` carried by a `SpecInvalidError` (the only class with the field
besides `ApiError.body`, which is modelled separately). -/
def SdkError.detailsOf : SdkError → Option JsVal
  | .specInvalid _ d _ => d
  | _ => none

/-- `isRetryableError` from `src/errors/error-codes.ts` lines 37-39:
`status >= StatusCodes.INTERNAL_SERVER_ERROR && status < 600` with
`StatusCodes.INTERNAL_SERVER_ERROR = 500`. -/
def isRetryableError (status : Nat) : Bool :=
  decide (500 ≤ status) && decide (status < 600)

/-- The outcome of the transport's single `axiosInstance.request(config)`
call: a resolved response (axios resolves for 2xx statuses), a rejected
`AxiosError` carrying an HTTP error response, or a rejection with no response
(network-level failure). -/
inductive AxiosOutcome where
  | success (status : Nat) (body : JsVal)
  | httpError (status : Nat) (body : JsVal)
  | networkFailure (detail : String)

/-- The value the ts-rest fetcher returns to the caller:
`{ status: response.status, body: response.data }`. -/
structure FetchResponse where
  status : Nat
  body : JsVal

/-- The fallback message `` `API error: ${status}` `` of
`src/contract/client.ts` line 152. -/
def fallbackApiMessage (status : Nat) : String :=
  "API error: " ++ toString status

/-- Error-message extraction of `src/contract/client.ts` lines 147-152:
`errorDetails = errorResponse?.error || {}` and
`errorMessage = errorDetails.message || fallback`. A falsy (absent, empty,
null) or non-string message falls through to the fallback, matching the wire
schema that types `message` as a string. -/
def extractedErrorMessage (data : JsVal) (status : Nat) : String :=
  match jsProp data "error" with
  | some errVal =>
    match jsProp errVal "message" with
    | some (.str s) => if s = "" then fallbackApiMessage status else s
    | _ => fallbackApiMessage status
  | none => fallbackApiMessage status

/-- The `api` fetcher of `createApiClient` in `src/contract/client.ts`
lines 110-179, as a function of the outcome of its single axios request:
* a resolved response is returned as `{status, body}` (lines 135-141);
* no response: `throw new NetworkError('Network error occurred', axiosError)`
  (lines 144-146);
* status 401 or 403: `throw new AuthError(errorMessage || 'Authentication
  failed', axiosError)` (lines 158-160);
* any other error status: `throw new ApiError(errorMessage, status,
  errorResponse, axiosError)` (line 164).
The outer catch (lines 166-178) re-throws domain errors and wraps anything
else as `NetworkError`; no other exception source exists in the embedded
straight-line code, so every error this function produces is typed. -/
def apiFetcher (outcome : AxiosOutcome) : Except SdkError FetchResponse :=
  match outcome with
  | .success status body => .ok ⟨status, body⟩
  | .networkFailure detail =>
      .error (.network "Network error occurred" (some (.noResponse detail)))
  | .httpError status data =>
      let errorMessage := extractedErrorMessage data status
      if status == 401 || status == 403 then
        .error (.auth (if errorMessage = "" then "Authentication failed" else errorMessage)
                      (some (.httpResponse status data)))
      else
        .error (.api errorMessage status (some data) (some (.httpResponse status data)))

/-- The enumeration of `ErrorCode` in `src/http/schemas/error.schema.ts`
lines 7-15. -/
def knownErrorCodes : List String :=
  ["VALIDATION_ERROR", "SERVICE_VALIDATION_ERROR", "JSON_PARSE_ERROR",
   "INVALID_CONTENT_TYPE", "AUTH_ERROR", "NOT_FOUND", "INTERNAL_ERROR"]

/-- `ValidationErrorSchema` of `src/http/schemas/error.schema.ts` lines 18-22:
`{field: string, message: string, source?: string}`. -/
def validationErrorOk (v : JsVal) : Bool :=
  v.isPlainObject &&
  (jsStrProp v "field").isSome &&
  (jsStrProp v "message").isSome &&
  (match jsProp v "source" with
   | none => true
   | some (.str _) => true
   | some _ => false)

/-- `ApiErrorSchema.omit({status: true})` of `src/http/schemas/error.schema.ts`
lines 24-30 as used by the envelope: `code` must be one of the `ErrorCode`
enumeration (`z.nativeEnum(ErrorCode)` accepts exactly the enum values),
`message` a string, `errors` an optional list of validation errors, `details`
anything (`z.unknown().optional()`). -/
def apiErrorBodyOk (v : JsVal) : Bool :=
  v.isPlainObject &&
  (match jsProp v "code" with
   | some (.str c) => knownErrorCodes.contains c
   | _ => false) &&
  (jsStrProp v "message").isSome &&
  (match jsProp v "errors" with
   | none => true
   | some (.arr es) => es.all validationErrorOk
   | some _ => false)

/-- The `.refine` predicate of `createApiResponseSchema` in
`src/http/schemas/error.schema.ts` lines 46-51:
`(data.ok && data.data !== undefined) || (!data.ok && data.error !== undefined)`. -/
def envelopeRefine (ok dataPresent errorPresent : Bool) : Bool :=
  (ok && dataPresent) || (!ok && errorPresent)

/-- Whether `createApiResponseSchema(dataSchema)` of
`src/http/schemas/error.schema.ts` lines 38-51 accepts a parsed body:
an object with a boolean `ok`, a numeric `status`, an optional `data`
validated by the data schema, an optional `error` validated by
`ApiErrorSchema.omit({status})`, refined by `envelopeRefine`. -/
def parseApiResponse (dataOk : JsVal → Bool) (v : JsVal) : Bool :=
  v.isPlainObject &&
  (match jsProp v "ok" with
   | some (.bool _) => true
   | _ => false) &&
  (match jsProp v "status" with
   | some (.num _) => true
   | _ => false) &&
  (match jsProp v "data" with
   | none => true
   | some d => dataOk d) &&
  (match jsProp v "error" with
   | none => true
   | some e => apiErrorBodyOk e) &&
  envelopeRefine
    (match jsProp v "ok" with
     | some (.bool b) => b
     | _ => false)
    (jsProp v "data").isSome
    (jsProp v "error").isSome

/-- `DeploymentResponseMinSchema` of `src/http/schemas/deployments.schema.ts`:
required string fields `id`, `createdBy`, `updatedBy`, `mcpServerId`,
`openAPISpecHash`, `mcpSpecHash`, `status`; `createdAt` an optional
string-or-date (JSON carries only the string arm). -/
def deploymentResponseMinOk (v : JsVal) : Bool :=
  v.isPlainObject &&
  (jsStrProp v "id").isSome &&
  (match jsProp v "createdAt" with
   | none => true
   | some (.str _) => true
   | some _ => false) &&
  (jsStrProp v "createdBy").isSome &&
  (jsStrProp v "updatedBy").isSome &&
  (jsStrProp v "mcpServerId").isSome &&
  (jsStrProp v "openAPISpecHash").isSome &&
  (jsStrProp v "mcpSpecHash").isSome &&
  (jsStrProp v "status").isSome

/-- `UpsertDeploymentResponseDataSchema`:
`{updated: boolean, deployment: DeploymentResponseMinSchema}`. -/
def upsertDeploymentDataOk (v : JsVal) : Bool :=
  v.isPlainObject &&
  (match jsProp v "updated" with
   | some (.bool _) => true
   | _ => false) &&
  (match jsProp v "deployment" with
   | some d => deploymentResponseMinOk d
   | none => false)

/-- The two response-schema shapes the deployments contract uses:
`UpsertDeploymentResponseSchema` and `createApiResponseSchema(z.null())`. -/
inductive RespSchemaKind where
  | upsertSuccess
  | errorNull
deriving DecidableEq

/-- The acceptance predicate each `RespSchemaKind` stands for. -/
def respSchemaAccepts : RespSchemaKind → JsVal → Bool
  | .upsertSuccess => parseApiResponse upsertDeploymentDataOk
  | .errorNull => parseApiResponse JsVal.isNull

/-- A ts-rest contract operation: method, path and the status-code to
response-schema map. -/
structure ContractOperation where
  method : String
  path : String
  responses : List (Nat × RespSchemaKind)

/-- The `upsertFromOpenApi` operation declared in
`src/http/contracts/deployments.contract.ts` lines 17-31: a POST to
`/api/deployments/from-openapi` whose response map carries
`UpsertDeploymentResponseSchema` for `StatusCodes.CREATED` (201) and
`createApiResponseSchema(z.null())` for `StatusCodes.BAD_REQUEST` (400),
`StatusCodes.NOT_FOUND` (404), `StatusCodes.INTERNAL_SERVER_ERROR` (500) and
`StatusCodes.UNAUTHORIZED` (401), listed in source order. -/
def upsertFromOpenApi : ContractOperation :=
  { method := "POST"
    path := "/api/deployments/from-openapi"
    responses :=
      [(201, .upsertSuccess), (400, .errorNull), (404, .errorNull),
       (500, .errorNull), (401, .errorNull)] }

/-- JavaScript `s.startsWith(p)`: a character-wise prefix test (stated over
the string's character list so that it evaluates on concrete inputs). -/
def jsStartsWith (s p : String) : Bool :=
  p.data.isPrefixOf s.data

/-- `validateOpenApiSpec` of `src/openapi/openapi-source.ts` lines 145-173,
check for check: the value must be object-typed and non-null; `openapi` must
be present and a string; the version must start with `"3."`; `info` and
`paths` must each be present, object-typed and non-null. Each failure throws
`SpecInvalidError` with the source's message and details payload. -/
def validateOpenApiSpec (spec : JsVal) : Except SdkError Unit :=
  if !spec.typeofObject || spec.isNull then
    .error (.specInvalid "Spec must be an object" (some (.obj [("spec", spec)])) none)
  else
    match jsProp spec "openapi" with
    | some (.str v) =>
      if !(jsStartsWith v "3.") then
        .error (.specInvalid "Only OpenAPI 3.x specifications are supported"
          (some (.obj [("version", .str v)])) none)
      else
        match jsProp spec "info" with
        | some info =>
          if info.typeofObject && !info.isNull then
            match jsProp spec "paths" with
            | some paths =>
              if paths.typeofObject && !paths.isNull then
                .ok ()
              else
                .error (.specInvalid "Missing or invalid \"paths\" field"
                  (some (.obj [("spec", spec)])) none)
            | none =>
              .error (.specInvalid "Missing or invalid \"paths\" field"
                (some (.obj [("spec", spec)])) none)
          else
            .error (.specInvalid "Missing or invalid \"info\" field"
              (some (.obj [("spec", spec)])) none)
        | none =>
          .error (.specInvalid "Missing or invalid \"info\" field"
            (some (.obj [("spec", spec)])) none)
    | some _ =>
      .error (.specInvalid "Missing or invalid \"openapi\" field"
        (some (.obj [("spec", spec)])) none)
    | none =>
      .error (.specInvalid "Missing or invalid \"openapi\" field"
        (some (.obj [("spec", spec)])) none)

/-- `OpenApiSource.fromObject` of `src/openapi/openapi-source.ts`
lines 134-139: validate, then wrap the raw document. The function is pure —
it takes no transport argument, so no network call can occur during
construction; deploy happens through a separate later call. -/
def fromObject (obj : JsVal) : Except SdkError JsVal :=
  match validateOpenApiSpec obj with
  | .error e => .error e
  | .ok _ => .ok obj

/-- The document-validity condition as the specification states it: an
object-typed, non-null document whose `openapi` version string starts with
`"3."` and whose `info` and `paths` fields are present objects (object-typed
and non-null, matching JavaScript `typeof`). -/
def validOpenApiDoc (d : JsVal) : Bool :=
  d.typeofObject && !d.isNull &&
  (match jsProp d "openapi" with
   | some (.str v) => jsStartsWith v "3."
   | _ => false) &&
  (match jsProp d "info" with
   | some v => v.typeofObject && !v.isNull
   | _ => false) &&
  (match jsProp d "paths" with
   | some v => v.typeofObject && !v.isNull
   | _ => false)

/-- A `Date` value in the facade's result: either constructed from a wire
value (`new Date(value)`) or the current time (`new Date()`). -/
inductive DateValue where
  | fromValue (v : JsVal)
  | now

/-- The public deployment result of `src/resources/mcp/types.ts`. `id` is an
`Option` because the source reads `deploymentData.id` without a check: an
absent field flows through as the JavaScript `undefined` value. -/
structure McpDeploymentResult where
  id : Option String
  specVersion : String
  url : String
  createdAt : DateValue

/-- The success mapping of `McpResource.deploy`,
`src/resources/mcp/mcp-resource.ts` lines 106-113: `id` as returned,
`specVersion` defaulted to `"1.0.0"`, `url` defaulted to
`` `http://localhost:3000/mcp/${deploymentData.id}` `` (an undefined id
stringifies as `"undefined"` in the template), `createdAt` parsed when
present/truthy and `new Date()` (now) otherwise. -/
def mapDeployment (dep : JsVal) : McpDeploymentResult :=
  let idStr := jsStrProp dep "id"
  { id := idStr
    specVersion := jsStrOr (jsStrProp dep "specVersion") "1.0.0"
    url := jsStrOr (jsStrProp dep "url")
      ("http://localhost:3000/mcp/" ++ (match idStr with | some s => s | none => "undefined"))
    createdAt :=
      match jsProp dep "createdAt" with
      | some v => if v.truthy then .fromValue v else .now
      | none => .now }

/-- The `isDeploymentResponse` type guard of
`src/resources/mcp/mcp-resource.ts` lines 85-87:
`typeof body === 'object' && body !== null && 'ok' in body`. -/
def isDeploymentResponse (body : JsVal) : Bool :=
  body.typeofObject && !body.isNull && jsHasKey body "ok"

/-- Truthiness of `response.body.ok`. -/
def jsOkTruthy (body : JsVal) : Bool :=
  (jsProp body "ok").any JsVal.truthy

/-- The response handling of `McpResource.deploy`,
`src/resources/mcp/mcp-resource.ts` lines 103-123:
* envelope with truthy `ok`: read `response.body.data.deployment` and map it
  (reading a property of an absent/null intermediate throws a raw
  `TypeError`);
* envelope with falsy `ok`: `throw new ApiError(error.message,
  response.status, error, null)` (a raw `TypeError` when `body.error` is
  absent or null);
* anything else: `throw new Error('Unexpected response status: ...')` — a raw
  untyped error (line 123). -/
def deployHandleBody (status : Nat) (body : JsVal) : Except SdkError McpDeploymentResult :=
  if isDeploymentResponse body && jsOkTruthy body then
    match jsProp body "data" with
    | none => .error (.rawError "TypeError")
    | some dataVal =>
      match jsProp dataVal "deployment" with
      | none => .error (.rawError "TypeError")
      | some dep =>
        if dep.isNull then .error (.rawError "TypeError")
        else .ok (mapDeployment dep)
  else if isDeploymentResponse body then
    match jsProp body "error" with
    | none => .error (.rawError "TypeError")
    | some errVal =>
      if errVal.isNull then .error (.rawError "TypeError")
      else
        .error (.api (jsStrOr (jsStrProp errVal "message") "") status (some errVal) none)
  else
    .error (.rawError ("Unexpected response status: " ++ toString status))

/-- The catch block of `McpResource.deploy`,
`src/resources/mcp/mcp-resource.ts` lines 124-145:
* `instanceof SpecInvalidError` → rethrow unchanged;
* `instanceof ApiError && statusCode === StatusCodes.BAD_REQUEST` → throw
  `new SpecInvalidError(error.message, body-details, error)`, where the
  details are `error.body.details` when the body is a truthy object
  (the *top-level* `details` key of the body, not the envelope's nested
  `error.details`);
* anything else → logged and rethrown unchanged. -/
def apiBodyDetails : Option JsVal → Option JsVal
  | some b => if b.truthy && b.typeofObject then jsProp b "details" else none
  | none => none

def deployCatch (e : SdkError) : Except SdkError McpDeploymentResult :=
  match e with
  | .specInvalid .. => .error e
  | .api m s body c =>
      if s = 400 then
        .error (.specInvalid m (apiBodyDetails body) (some (.api m s body c)))
      else .error e
  | _ => .error e

/-- One execution of `McpResource.deploy` as a function of the axios outcome
of its single HTTP request: the client call either rejects with the fetcher's
domain error or resolves with `{status, body}`, the body is handled, and any
thrown value passes through the catch block. -/
def deployRun (outcome : AxiosOutcome) : Except SdkError McpDeploymentResult :=
  match apiFetcher outcome with
  | .error e => deployCatch e
  | .ok resp =>
    match deployHandleBody resp.status resp.body with
    | .ok r => .ok r
    | .error e => deployCatch e

/-- The transport performs exactly one HTTP request per deploy call: the
fetcher body of `src/contract/client.ts` contains a single
`await axiosInstance.request(config)` and no retry loop, and nothing else in
the call path issues a request. Given a schedule of prepared outcomes for
successive requests, one call consumes exactly the first outcome; the pair
also reports the number of requests performed. -/
def deployRunSchedule : List AxiosOutcome → Option (Except SdkError McpDeploymentResult × Nat)
  | [] => none
  | o :: _ => some (deployRun o, 1)

/-- Whether `deployHandleBody` can interpret a response body without hitting
a raw-error path: an `ok`-carrying envelope whose active arm has its required
nested value present and non-null. -/
def deployBodyInterpretable (b : JsVal) : Bool :=
  if isDeploymentResponse b && jsOkTruthy b then
    match jsProp b "data" with
    | none => false
    | some dataVal =>
      match jsProp dataVal "deployment" with
      | none => false
      | some dep => !dep.isNull
  else if isDeploymentResponse b then
    match jsProp b "error" with
    | none => false
    | some errVal => !errVal.isNull
  else false

/-- Whether a response body carries a non-empty string error message at
`body.error.message` (the location the fetcher reads). -/
def bodyHasErrorMessage (body : JsVal) : Bool :=
  match jsProp body "error" with
  | some e =>
    match jsProp e "message" with
    | some (.str s) => !(s = "")
    | _ => false
  | none => false

/-- A concrete 400 error envelope in the server's wire format whose nested
`error.details` carries a payload, for exercising the facade's
re-classification. -/
def envBadSpec : JsVal :=
  JsVal.obj [("ok", JsVal.bool false), ("status", JsVal.num 400),
    ("error", JsVal.obj [("code", JsVal.str "VALIDATION_ERROR"),
      ("message", JsVal.str "bad spec"), ("details", JsVal.str "why")])]

/-! ### Shared lemmas -/

theorem fallbackApiMessage_ne_empty (s : Nat) : fallbackApiMessage s ≠ "" := by
  intro h
  have h2 := congrArg String.length h
  simp [fallbackApiMessage, String.length_append] at h2
  exact absurd h2.1 (by decide)

theorem extractedErrorMessage_ne_empty (d : JsVal) (s : Nat) :
    extractedErrorMessage d s ≠ "" := by
  unfold extractedErrorMessage
  split
  · split
    · split
      · exact fallbackApiMessage_ne_empty s
      · assumption
    · exact fallbackApiMessage_ne_empty s
  · exact fallbackApiMessage_ne_empty s

theorem deployCatch_preserves_typed (e e' : SdkError) (h : deployCatch e = .error e') :
    e'.isTypedDomainError = e.isTypedDomainError := by
  cases e <;> simp [deployCatch] at h <;> try (subst h; rfl)
  case api m s body c =>
    split at h <;> (injection h with h2; subst h2; rfl)

theorem apiFetcher_error_typed (o : AxiosOutcome) (e : SdkError)
    (h : apiFetcher o = .error e) : e.isTypedDomainError = true := by
  cases o with
  | success s b => simp [apiFetcher] at h
  | networkFailure d =>
    simp only [apiFetcher] at h
    injection h with h2; subst h2; rfl
  | httpError s b =>
    simp only [apiFetcher] at h
    split at h <;> (injection h with h2; subst h2; rfl)

/-! ### Claim C1 — retry policy -/

/-- Claim C1, counterexample: the transport's retry classification
(`isRetryableError`, error-codes.ts lines 37-39) marks an HTTP 429 response as
NOT retryable, refuting "an HTTP 429 response is always retried". -/
theorem c1_counterexample : isRetryableError 429 = false := by decide

/-- Claim C1 (amended): the retry classification marks exactly the 5xx
statuses as retryable — 429 and every other 4xx status are not retryable —
and the transport performs no retries at all (it has no retry bound): a 500
response makes deploy fail with an Api error carrying status 500 after
exactly one attempt. -/
theorem c1_retry_policy :
    isRetryableError 429 = false ∧
    (∀ s : Nat, 400 ≤ s → s < 500 → isRetryableError s = false) ∧
    (∀ s : Nat, 500 ≤ s → s < 600 → isRetryableError s = true) ∧
    (∀ (body : JsVal) (rest : List AxiosOutcome),
      deployRunSchedule (AxiosOutcome.httpError 500 body :: rest) =
        some (Except.error (SdkError.api (extractedErrorMessage body 500) 500 (some body)
          (some (TransportExn.httpResponse 500 body))), 1)) := by
  refine ⟨by decide, ?_, ?_, ?_⟩
  · intro s h1 h2
    simp only [isRetryableError, decide_eq_false (show ¬ 500 ≤ s by omega), Bool.false_and]
  · intro s h1 h2
    simp only [isRetryableError, Bool.and_eq_true, decide_eq_true_eq]
    exact ⟨h1, h2⟩
  · intro body rest
    rfl

/-- Claim C1, witness: the amended statement instantiated at status 404 (not
retryable), 503 (retryable), and a concrete one-element 500 schedule. -/
theorem c1_retry_policy_witness :
    isRetryableError 404 = false ∧ isRetryableError 503 = true ∧
    deployRunSchedule [AxiosOutcome.httpError 500 (JsVal.obj [])] =
      some (Except.error (SdkError.api "API error: 500" 500 (some (JsVal.obj []))
        (some (TransportExn.httpResponse 500 (JsVal.obj [])))), 1) := by
  refine ⟨c1_retry_policy.2.1 404 (by decide) (by decide),
          c1_retry_policy.2.2.1 503 (by decide) (by decide), ?_⟩
  have h := c1_retry_policy.2.2.2 (JsVal.obj []) []
  have h2 : extractedErrorMessage (JsVal.obj []) 500 = "API error: 500" := rfl
  rw [h2] at h
  exact h

/-! ### Claim C3 — response classification in the transport adapter -/

/-- Claim C3, counterexample: a 401 response whose body carries no message
produces an Auth error whose message is "API error: 401", not the claimed
default "Authentication failed" (the constructor default is dead code because
the fetcher always passes a non-empty message). -/
theorem c3_counterexample :
    apiFetcher (AxiosOutcome.httpError 401 (JsVal.obj [])) =
      Except.error (SdkError.auth "API error: 401"
        (some (TransportExn.httpResponse 401 (JsVal.obj [])))) ∧
    "API error: 401" ≠ "Authentication failed" := ⟨rfl, by decide⟩

/-- Claim C3 (amended): status 401 or 403 produces an Auth error whose
message is the extracted envelope message, falling back to
"API error: {status}" — not "Authentication failed" — when the body carries
no message; any other error status produces an Api error carrying the numeric
status and the raw response body; no response at all produces a Network error
whose cause is the underlying transport exception. -/
theorem c3_response_mapping :
    (∀ (s : Nat) (body : JsVal), s = 401 ∨ s = 403 →
      apiFetcher (.httpError s body) =
        .error (.auth (extractedErrorMessage body s)
          (some (.httpResponse s body)))) ∧
    (∀ (s : Nat) (body : JsVal), bodyHasErrorMessage body = false →
      extractedErrorMessage body s = "API error: " ++ toString s) ∧
    (∀ (s : Nat) (body : JsVal), s ≠ 401 → s ≠ 403 →
      apiFetcher (.httpError s body) =
        .error (.api (extractedErrorMessage body s) s (some body)
          (some (.httpResponse s body)))) ∧
    (∀ d, apiFetcher (.networkFailure d) =
      .error (.network "Network error occurred" (some (.noResponse d)))) := by
  refine ⟨?_, ?_, ?_, fun d => rfl⟩
  · rintro s body (rfl | rfl) <;>
      · show Except.error (SdkError.auth
            (if extractedErrorMessage body _ = "" then "Authentication failed"
             else extractedErrorMessage body _) _) = _
        rw [if_neg (extractedErrorMessage_ne_empty body _)]
  · intro s body h
    simp only [bodyHasErrorMessage] at h
    simp only [extractedErrorMessage, fallbackApiMessage]
    rcases h1 : jsProp body "error" with _ | errVal
    · simp [h1]
    · simp only [h1] at h ⊢
      rcases h2 : jsProp errVal "message" with _ | mv
      · simp [h2]
      · simp only [h2] at h ⊢
        cases mv <;> simp_all
  · intro s body h1 h2
    have hc : (s == 401 || s == 403) = false := by simp [h1, h2]
    simp [apiFetcher, hc]

/-- Claim C3, witness: the amended statement applied at a 403 response with an
empty body, a message-less body at status 404, a 500 response, and a network
failure. -/
theorem c3_response_mapping_witness :
    apiFetcher (AxiosOutcome.httpError 403 (JsVal.obj [])) =
      Except.error (SdkError.auth (extractedErrorMessage (JsVal.obj []) 403)
        (some (TransportExn.httpResponse 403 (JsVal.obj [])))) ∧
    extractedErrorMessage (JsVal.obj []) 404 = "API error: " ++ toString 404 ∧
    apiFetcher (AxiosOutcome.httpError 500 (JsVal.obj [])) =
      Except.error (SdkError.api (extractedErrorMessage (JsVal.obj []) 500) 500
        (some (JsVal.obj [])) (some (TransportExn.httpResponse 500 (JsVal.obj [])))) ∧
    apiFetcher (AxiosOutcome.networkFailure "ECONNREFUSED") =
      Except.error (SdkError.network "Network error occurred"
        (some (TransportExn.noResponse "ECONNREFUSED"))) :=
  ⟨c3_response_mapping.1 403 (JsVal.obj []) (Or.inr rfl),
   c3_response_mapping.2.1 404 (JsVal.obj []) (by decide),
   c3_response_mapping.2.2.1 500 (JsVal.obj []) (by decide) (by decide),
   c3_response_mapping.2.2.2 "ECONNREFUSED"⟩

/-! ### Claim C8 — the deployments contract declaration -/

/-- Claim C8, counterexample: the status-code map of the upsert-deployment
contract operation has no entry at all for status 200 (and none for 403),
refuting "contains the success envelope for both 200 and 201 and the error
envelope for each of 400, 401, 403, 404, and 500". -/
theorem c8_counterexample :
    upsertFromOpenApi.responses.lookup 200 = none ∧
    upsertFromOpenApi.responses.lookup 403 = none := by decide

/-- Claim C8 (amended): the operation is a POST to the fixed
deployment-upsert path whose status-code map contains the success envelope
for 201 only and the error envelope for each of 400, 401, 404 and 500; there
is no entry for 200 or 403. -/
theorem c8_contract_map :
    upsertFromOpenApi.method = "POST" ∧
    upsertFromOpenApi.path = "/api/deployments/from-openapi" ∧
    upsertFromOpenApi.responses.lookup 201 = some .upsertSuccess ∧
    upsertFromOpenApi.responses.lookup 400 = some .errorNull ∧
    upsertFromOpenApi.responses.lookup 401 = some .errorNull ∧
    upsertFromOpenApi.responses.lookup 404 = some .errorNull ∧
    upsertFromOpenApi.responses.lookup 500 = some .errorNull ∧
    upsertFromOpenApi.responses.lookup 200 = none ∧
    upsertFromOpenApi.responses.lookup 403 = none ∧
    upsertFromOpenApi.responses.map Prod.fst = [201, 400, 404, 500, 401] := by
  refine ⟨rfl, rfl, ?_, ?_, ?_, ?_, ?_, ?_, ?_, rfl⟩ <;> decide

/-! ### Claim C10 — Auth errors carry a fixed 401 status -/

/-- Claim C10: every Auth error carries the constructor-fixed HTTP status 401
and code "auth_error"; in particular a 403 response yields an Auth error, and
any Auth error's status field is 401 — never 403 — so callers cannot
distinguish 401 from 403 through it. -/
theorem c10_auth_fixed_status :
    (∀ m c, SdkError.statusCode (.auth m c) = some 401) ∧
    (∀ m c, SdkError.code (.auth m c) = some "auth_error") ∧
    (∀ body : JsVal,
      apiFetcher (.httpError 403 body) =
        .error (.auth (extractedErrorMessage body 403)
          (some (.httpResponse 403 body)))) ∧
    (∀ m c, SdkError.statusCode (.auth m c) ≠ some 403) := by
  refine ⟨fun m c => rfl, fun m c => rfl, ?_, ?_⟩
  · intro body
    show Except.error (SdkError.auth
        (if extractedErrorMessage body 403 = "" then "Authentication failed"
         else extractedErrorMessage body 403) _) = _
    rw [if_neg (extractedErrorMessage_ne_empty body 403)]
  · intro m c
    show (some 401 : Option Nat) ≠ some 403
    decide

/-! ### Claim C2 — error propagation out of deploy -/

theorem deployHandleBody_untyped (s : Nat) (b : JsVal) (e : SdkError)
    (h : deployHandleBody s b = .error e) (hu : e.isTypedDomainError = false) :
    deployBodyInterpretable b = false := by
  unfold deployHandleBody at h
  unfold deployBodyInterpretable
  by_cases hc1 : (isDeploymentResponse b && jsOkTruthy b) = true
  · rw [if_pos hc1] at h ⊢
    rcases h1 : jsProp b "data" with _ | dataVal
    · simp [h1]
    · simp only [h1] at h ⊢
      rcases h2 : jsProp dataVal "deployment" with _ | dep
      · simp [h2]
      · simp only [h2] at h ⊢
        split at h
        · simp_all [JsVal.isNull]
        · exact absurd h (by simp)
  · rw [if_neg hc1] at h ⊢
    by_cases hc2 : isDeploymentResponse b = true
    · rw [if_pos hc2] at h ⊢
      rcases h1 : jsProp b "error" with _ | errVal
      · simp [h1]
      · simp only [h1] at h ⊢
        split at h
        · simp_all
        · injection h with h3
          subst h3
          exact absurd hu (by simp [SdkError.isTypedDomainError])
    · rw [if_neg hc2] at h ⊢

/-- Claim C2, counterexample: a transport-level success (HTTP 200) whose body
is an empty object — no `ok` field — makes deploy throw the raw untyped
`Error('Unexpected response status: 200')` of mcp-resource.ts line 123, and
the catch block re-raises it unchanged: the value that escapes is not one of
the typed domain errors. -/
theorem c2_counterexample :
    deployRun (AxiosOutcome.success 200 (JsVal.obj [])) =
      Except.error (SdkError.rawError ("Unexpected response status: " ++ toString 200)) ∧
    SdkError.isTypedDomainError
      (SdkError.rawError ("Unexpected response status: " ++ toString 200)) = false :=
  ⟨rfl, rfl⟩

/-- Claim C2 (amended): the transport adapter itself never lets a raw
exception escape — every error it produces is one of the typed domain
errors — but the resource facade can: a raw untyped Error escapes deploy
exactly on transport-successful responses whose body deploy cannot interpret
(no boolean-bearing `ok` key, or the active arm's required nested value
absent or null); every other failure path throws a typed domain error. -/
theorem c2_error_propagation :
    (∀ (o : AxiosOutcome) (e : SdkError), apiFetcher o = .error e →
      e.isTypedDomainError = true) ∧
    (∀ (o : AxiosOutcome) (e : SdkError), deployRun o = .error e →
      e.isTypedDomainError = false →
      ∃ s b, o = AxiosOutcome.success s b ∧ deployBodyInterpretable b = false) := by
  refine ⟨apiFetcher_error_typed, ?_⟩
  intro o e h hu
  cases o with
  | networkFailure d =>
    exfalso
    simp only [deployRun, apiFetcher] at h
    have ht := deployCatch_preserves_typed _ _ h
    rw [hu] at ht
    exact absurd ht.symm (by simp [SdkError.isTypedDomainError])
  | httpError s b =>
    exfalso
    cases hf : apiFetcher (AxiosOutcome.httpError s b) with
    | ok r =>
      simp only [apiFetcher] at hf
      split at hf <;> exact absurd hf (by simp)
    | error e0 =>
      simp only [deployRun, hf] at h
      have ht := deployCatch_preserves_typed _ _ h
      rw [hu, apiFetcher_error_typed _ _ hf] at ht
      exact absurd ht (by simp)
  | success s b =>
    refine ⟨s, b, rfl, ?_⟩
    simp only [deployRun, apiFetcher] at h
    cases hb : deployHandleBody s b with
    | ok r => rw [hb] at h; exact absurd h (by simp)
    | error e0 =>
      rw [hb] at h
      have ht := deployCatch_preserves_typed _ _ h
      rw [hu] at ht
      exact deployHandleBody_untyped s b e0 hb ht.symm

/-- Claim C2, witness: the amended statement applied to a concrete network
failure (typed Network error) and to the raw-error execution of the
counterexample input. -/
theorem c2_error_propagation_witness :
    SdkError.isTypedDomainError (SdkError.network "Network error occurred"
      (some (TransportExn.noResponse "down"))) = true ∧
    ∃ s b, AxiosOutcome.success 200 (JsVal.obj []) = AxiosOutcome.success s b ∧
      deployBodyInterpretable b = false :=
  ⟨c2_error_propagation.1 (AxiosOutcome.networkFailure "down") _ rfl,
   c2_error_propagation.2 (AxiosOutcome.success 200 (JsVal.obj []))
     (SdkError.rawError ("Unexpected response status: " ++ toString 200)) rfl rfl⟩

/-! ### Claim C4 — the error-code enumeration is closed and strict -/

/-- Claim C4, counterexample: an error object whose `code` is outside the
enumeration fails `ApiErrorSchema` validation — `z.nativeEnum(ErrorCode)`
rejects it rather than mapping it to `internal-error` — and a response
envelope carrying it fails envelope validation too, while the same object
with a known code passes. -/
theorem c4_counterexample :
    apiErrorBodyOk (JsVal.obj
      [("code", JsVal.str "BRAND_NEW_CODE"), ("message", JsVal.str "boom")]) = false ∧
    parseApiResponse JsVal.isNull (JsVal.obj
      [("ok", JsVal.bool false), ("status", JsVal.num 500),
       ("error", JsVal.obj
         [("code", JsVal.str "BRAND_NEW_CODE"), ("message", JsVal.str "boom")])]) = false ∧
    apiErrorBodyOk (JsVal.obj
      [("code", JsVal.str "INTERNAL_ERROR"), ("message", JsVal.str "boom")]) = true := by
  refine ⟨?_, ?_, ?_⟩ <;> decide

/-- Claim C4 (amended): the error-envelope schema accepts only the seven
enumerated codes: any error object whose server-reported code lies outside
the enumeration fails schema validation — there is no permissive fallback
mapping unknown codes to internal-error — and every accepted error object
carries one of the enumerated codes. -/
theorem c4_error_code_enum :
    (∀ (c m : String) (rest : List (String × JsVal)),
      knownErrorCodes.contains c = false →
      apiErrorBodyOk (JsVal.obj
        (("code", JsVal.str c) :: ("message", JsVal.str m) :: rest)) = false) ∧
    (∀ v : JsVal, apiErrorBodyOk v = true →
      ∃ c, jsProp v "code" = some (JsVal.str c) ∧ knownErrorCodes.contains c = true) := by
  constructor
  · intro c m rest h
    have hl : jsProp (JsVal.obj
        (("code", JsVal.str c) :: ("message", JsVal.str m) :: rest)) "code"
        = some (JsVal.str c) := rfl
    simp only [apiErrorBodyOk, hl]
    simp only [Bool.and_eq_false_imp]
    intro ha
    simp only [Bool.and_eq_true] at ha
    rw [h] at ha
    exact absurd ha.1.2 (by simp)
  · intro v hv
    unfold apiErrorBodyOk at hv
    rcases hcode : jsProp v "code" with _ | cv
    · simp only [hcode] at hv
      simp at hv
    · simp only [hcode] at hv
      cases cv with
      | str c =>
        refine ⟨c, rfl, ?_⟩
        simp only [Bool.and_eq_true] at hv
        simpa using hv.1.1.2
      | null => simp at hv
      | bool b => simp at hv
      | num n => simp at hv
      | arr es => simp at hv
      | obj fs => simp at hv

/-- Claim C4, witness: the amended statement applied to a concrete unknown
code and to a concrete accepted error object. -/
theorem c4_error_code_enum_witness :
    knownErrorCodes.contains "SOME_FUTURE_CODE" = false ∧
    apiErrorBodyOk (JsVal.obj
      [("code", JsVal.str "SOME_FUTURE_CODE"), ("message", JsVal.str "m")]) = false ∧
    ∃ c, jsProp (JsVal.obj
        [("code", JsVal.str "NOT_FOUND"), ("message", JsVal.str "m")]) "code"
        = some (JsVal.str c) ∧ knownErrorCodes.contains c = true :=
  ⟨by decide,
   c4_error_code_enum.1 "SOME_FUTURE_CODE" "m" [] (by decide),
   c4_error_code_enum.2 _ (by decide)⟩

/-! ### Claim C5 — response-envelope validation -/

/-- Claim C5, counterexample: a body carrying BOTH `data` and `error` (with
`ok=true` and both fields individually valid) is ACCEPTED by
`createApiResponseSchema` — the refine only requires the `ok`-mandated field
to be present and does not enforce exclusivity — refuting "a body carrying
both data and error is rejected". -/
theorem c5_counterexample :
    parseApiResponse JsVal.isNull (JsVal.obj
      [("ok", JsVal.bool true), ("status", JsVal.num 400), ("data", JsVal.null),
       ("error", JsVal.obj
         [("code", JsVal.str "INTERNAL_ERROR"), ("message", JsVal.str "x")])]) = true := by
  decide

/-- Claim C5 (amended): envelope validation rejects a body with `ok=true` and
`data` absent, and a body with `ok=false` and `error` absent; but it does not
enforce exclusivity — a body carrying both a valid `data` and a valid `error`
is accepted whenever the `ok`-mandated field is present. -/
theorem c5_envelope_validation :
    (∀ (dataOk : JsVal → Bool) (v : JsVal),
      jsProp v "ok" = some (JsVal.bool true) → jsProp v "data" = none →
      parseApiResponse dataOk v = false) ∧
    (∀ (dataOk : JsVal → Bool) (v : JsVal),
      jsProp v "ok" = some (JsVal.bool false) → jsProp v "error" = none →
      parseApiResponse dataOk v = false) ∧
    parseApiResponse JsVal.isNull (JsVal.obj
      [("ok", JsVal.bool true), ("status", JsVal.num 400), ("data", JsVal.null),
       ("error", JsVal.obj
         [("code", JsVal.str "INTERNAL_ERROR"), ("message", JsVal.str "x")])]) = true := by
  refine ⟨?_, ?_, by decide⟩
  · intro dataOk v h1 h2
    simp [parseApiResponse, h1, h2, envelopeRefine]
  · intro dataOk v h1 h2
    simp [parseApiResponse, h1, h2, envelopeRefine]

/-- Claim C5, witness: the amended statement applied to a concrete
`ok=true`/no-data body and a concrete `ok=false`/no-error body. -/
theorem c5_envelope_validation_witness :
    parseApiResponse JsVal.isNull
      (JsVal.obj [("ok", JsVal.bool true), ("status", JsVal.num 200)]) = false ∧
    parseApiResponse JsVal.isNull
      (JsVal.obj [("ok", JsVal.bool false), ("status", JsVal.num 500)]) = false :=
  ⟨c5_envelope_validation.1 JsVal.isNull _ rfl rfl,
   c5_envelope_validation.2.1 JsVal.isNull _ rfl rfl⟩

/-! ### Claim C6 — structural validation of the OpenAPI document -/

theorem validateOpenApiSpec_ok_iff (d : JsVal) :
    (validateOpenApiSpec d = Except.ok ()) ↔ validOpenApiDoc d = true := by
  cases d with
  | null => simp [validateOpenApiSpec, validOpenApiDoc, JsVal.typeofObject, JsVal.isNull]
  | bool b => simp [validateOpenApiSpec, validOpenApiDoc, JsVal.typeofObject, JsVal.isNull]
  | num n => simp [validateOpenApiSpec, validOpenApiDoc, JsVal.typeofObject, JsVal.isNull]
  | str s => simp [validateOpenApiSpec, validOpenApiDoc, JsVal.typeofObject, JsVal.isNull]
  | arr es => simp [validateOpenApiSpec, validOpenApiDoc, JsVal.typeofObject, JsVal.isNull, jsProp]
  | obj fields =>
    rcases ho : jsProp (JsVal.obj fields) "openapi" with _ | ov
    · simp [validateOpenApiSpec, validOpenApiDoc, JsVal.typeofObject, JsVal.isNull, ho]
    · cases ov with
      | str v =>
        cases hs : jsStartsWith v "3." with
        | false =>
          simp [validateOpenApiSpec, validOpenApiDoc, JsVal.typeofObject, JsVal.isNull, ho, hs]
        | true =>
          rcases hi : jsProp (JsVal.obj fields) "info" with _ | iv
          · simp [validateOpenApiSpec, validOpenApiDoc, JsVal.typeofObject, JsVal.isNull,
              ho, hs, hi]
          · rcases hp : jsProp (JsVal.obj fields) "paths" with _ | pv
            · cases iv <;>
                simp [validateOpenApiSpec, validOpenApiDoc, JsVal.typeofObject, JsVal.isNull,
                  ho, hs, hi, hp]
            · cases iv <;> cases pv <;>
                simp [validateOpenApiSpec, validOpenApiDoc, JsVal.typeofObject, JsVal.isNull,
                  ho, hs, hi, hp]
      | null =>
        simp [validateOpenApiSpec, validOpenApiDoc, JsVal.typeofObject, JsVal.isNull, ho]
      | bool b =>
        simp [validateOpenApiSpec, validOpenApiDoc, JsVal.typeofObject, JsVal.isNull, ho]
      | num n =>
        simp [validateOpenApiSpec, validOpenApiDoc, JsVal.typeofObject, JsVal.isNull, ho]
      | arr es =>
        simp [validateOpenApiSpec, validOpenApiDoc, JsVal.typeofObject, JsVal.isNull, ho]
      | obj fs =>
        simp [validateOpenApiSpec, validOpenApiDoc, JsVal.typeofObject, JsVal.isNull, ho]

theorem validateOpenApiSpec_cases (d : JsVal) :
    validateOpenApiSpec d = Except.ok () ∨
    ∃ m det, validateOpenApiSpec d = Except.error (SdkError.specInvalid m det none) := by
  unfold validateOpenApiSpec
  split
  · exact Or.inr ⟨_, _, rfl⟩
  · split
    · split
      · exact Or.inr ⟨_, _, rfl⟩
      · split
        · split
          · split
            · split
              · exact Or.inl rfl
              · exact Or.inr ⟨_, _, rfl⟩
            · exact Or.inr ⟨_, _, rfl⟩
          · exact Or.inr ⟨_, _, rfl⟩
        · exact Or.inr ⟨_, _, rfl⟩
    · exact Or.inr ⟨_, _, rfl⟩
    · exact Or.inr ⟨_, _, rfl⟩

/-- Claim C6: structural validation succeeds exactly on documents that are
JavaScript-object-typed and non-null with an `openapi` string starting in
`"3."` and present, object-typed, non-null `info` and `paths`; `fromObject`
construction succeeds on exactly the same documents and otherwise fails with
a SpecInvalid error — and, being a pure function with no transport parameter,
it performs no network call. -/
theorem c6_structural_validation :
    ∀ d : JsVal,
      ((validateOpenApiSpec d = Except.ok ()) ↔ validOpenApiDoc d = true) ∧
      ((fromObject d = Except.ok d) ↔ validOpenApiDoc d = true) ∧
      (validOpenApiDoc d = false →
        ∃ m det, fromObject d = Except.error (SdkError.specInvalid m det none)) := by
  intro d
  refine ⟨validateOpenApiSpec_ok_iff d, ?_, ?_⟩
  · unfold fromObject
    rcases validateOpenApiSpec_cases d with h | ⟨m, det, h⟩
    · simp [h, (validateOpenApiSpec_ok_iff d).mp h]
    · have hv : validOpenApiDoc d ≠ true := by
        intro hv
        have h2 := (validateOpenApiSpec_ok_iff d).mpr hv
        rw [h2] at h
        exact Except.noConfusion h
      simp [h, hv]
  · intro hfalse
    rcases validateOpenApiSpec_cases d with h | ⟨m, det, h⟩
    · exact absurd ((validateOpenApiSpec_ok_iff d).mp h) (by simp [hfalse])
    · exact ⟨m, det, by unfold fromObject; rw [h]⟩

/-- Claim C6, witness: a document missing `openapi` fails construction with
SpecInvalid, and a concrete valid 3.0.0 document constructs successfully. -/
theorem c6_structural_validation_witness :
    validOpenApiDoc (JsVal.obj [("info", JsVal.obj []), ("paths", JsVal.obj [])]) = false ∧
    (∃ m det, fromObject (JsVal.obj [("info", JsVal.obj []), ("paths", JsVal.obj [])]) =
      Except.error (SdkError.specInvalid m det none)) ∧
    fromObject (JsVal.obj [("openapi", JsVal.str "3.0.0"),
      ("info", JsVal.obj [("title", JsVal.str "Test API"), ("version", JsVal.str "1.0.0")]),
      ("paths", JsVal.obj [])]) =
      Except.ok (JsVal.obj [("openapi", JsVal.str "3.0.0"),
        ("info", JsVal.obj [("title", JsVal.str "Test API"), ("version", JsVal.str "1.0.0")]),
        ("paths", JsVal.obj [])]) :=
  ⟨by decide,
   (c6_structural_validation _).2.2 (by decide),
   (c6_structural_validation _).2.1.mpr (by decide)⟩

/-! ### Claim C7 — the facade's single re-classification -/

/-- Claim C7, counterexample: on a 400 response whose envelope nests the
service's details payload at `error.details`, the re-classified SpecInvalid
error carries `details = none` — the facade reads the TOP-LEVEL `details` key
of the Api error's body (the whole envelope), so the service's details
payload is NOT carried through. The message "bad spec" is preserved. -/
theorem c7_counterexample :
    deployRun (AxiosOutcome.httpError 400 envBadSpec) =
      Except.error (SdkError.specInvalid "bad spec" none
        (some (SdkError.api "bad spec" 400 (some envBadSpec)
          (some (TransportExn.httpResponse 400 envBadSpec))))) ∧
    (jsProp envBadSpec "error").bind (fun e => jsProp e "details") =
      some (JsVal.str "why") ∧
    (none : Option JsVal) ≠ some (JsVal.str "why") :=
  ⟨rfl, rfl, fun h => Option.noConfusion h⟩

/-- Claim C7 (amended): the facade's catch block re-raises SpecInvalid
unchanged, converts an Api error with status 400 into a SpecInvalid carrying
the original error as cause and the top-level `details` field of the Api
error's body (absent for the standard envelope, whose details sit at
`error.details`), and re-raises every other error unchanged; a 400 response
with error message "bad spec" makes deploy reject with a SpecInvalid whose
message is "bad spec". -/
theorem c7_reclassification :
    (∀ m det c, deployCatch (SdkError.specInvalid m det c) =
      Except.error (SdkError.specInvalid m det c)) ∧
    (∀ m body c, deployCatch (SdkError.api m 400 body c) =
      Except.error (SdkError.specInvalid m (apiBodyDetails body)
        (some (SdkError.api m 400 body c)))) ∧
    (∀ m c, deployCatch (SdkError.auth m c) = Except.error (SdkError.auth m c)) ∧
    (∀ m c, deployCatch (SdkError.network m c) = Except.error (SdkError.network m c)) ∧
    (∀ m, deployCatch (SdkError.rawError m) = Except.error (SdkError.rawError m)) ∧
    (∀ m s body c, s ≠ 400 → deployCatch (SdkError.api m s body c) =
      Except.error (SdkError.api m s body c)) ∧
    deployRun (AxiosOutcome.httpError 400 envBadSpec) =
      Except.error (SdkError.specInvalid "bad spec" (apiBodyDetails (some envBadSpec))
        (some (SdkError.api "bad spec" 400 (some envBadSpec)
          (some (TransportExn.httpResponse 400 envBadSpec))))) := by
  refine ⟨fun m det c => rfl, fun m body c => rfl, fun m c => rfl, fun m c => rfl,
          fun m => rfl, ?_, rfl⟩
  intro m s body c h
  simp [deployCatch, h]

/-- Claim C7, witness: the amended statement applied to a concrete non-400
Api error (passed through unchanged) and a concrete 400 Api error
(re-classified). -/
theorem c7_reclassification_witness :
    deployCatch (SdkError.api "oops" 500 none none) =
      Except.error (SdkError.api "oops" 500 none none) ∧
    deployCatch (SdkError.api "bad" 400 none none) =
      Except.error (SdkError.specInvalid "bad" (apiBodyDetails none)
        (some (SdkError.api "bad" 400 none none))) :=
  ⟨c7_reclassification.2.2.2.2.2.1 "oops" 500 none none (by decide),
   c7_reclassification.2.1 "bad" none none⟩

/-! ### Claim C9 — the success mapping of deploy -/

theorem isDeploymentResponse_of_ok (env x : JsVal) (h : jsProp env "ok" = some x) :
    isDeploymentResponse env = true := by
  cases env <;>
    simp_all [isDeploymentResponse, jsProp, jsHasKey, JsVal.typeofObject, JsVal.isNull]

/-- Claim C9: on a success-status response with a well-formed ok-envelope,
deploy returns the mapped deployment: the result's id equals the deployment's
`id` as returned by the server, a missing `url` defaults to the deterministic
local placeholder built from the id, and a missing `createdAt` defaults to
the current time (`new Date()`). -/
theorem c9_success_mapping :
    ∀ (env dataVal dep : JsVal) (i : String) (status : Nat),
      jsProp env "ok" = some (JsVal.bool true) →
      jsProp env "data" = some dataVal →
      jsProp dataVal "deployment" = some dep →
      dep.isNull = false →
      jsStrProp dep "id" = some i →
      jsProp dep "url" = none →
      jsProp dep "createdAt" = none →
      deployRun (AxiosOutcome.success status env) = Except.ok (mapDeployment dep) ∧
      (mapDeployment dep).id = some i ∧
      (mapDeployment dep).url = "http://localhost:3000/mcp/" ++ i ∧
      (mapDeployment dep).createdAt = DateValue.now := by
  intro env dataVal dep i status h1 h2 h3 h4 h5 h6 h7
  have hio : isDeploymentResponse env = true := isDeploymentResponse_of_ok env _ h1
  have hot : jsOkTruthy env = true := by
    simp [jsOkTruthy, h1, JsVal.truthy]
  have h6s : jsStrProp dep "url" = none := by simp [jsStrProp, h6]
  refine ⟨?_, ?_, ?_, ?_⟩
  · simp [deployRun, apiFetcher, deployHandleBody, hio, hot, h2, h3, h4]
  · simp [mapDeployment, h5]
  · simp [mapDeployment, h5, h6s, jsStrOr]
  · simp [mapDeployment, h7]

/-- Claim C9, witness: a mocked success body whose `deployment.id` is
"abc123" and which omits `url` and `createdAt` yields that id, the local
placeholder URL for it, and a "now" creation time. -/
theorem c9_success_mapping_witness :
    deployRun (AxiosOutcome.success 200 (JsVal.obj
      [("ok", JsVal.bool true), ("status", JsVal.num 200),
       ("data", JsVal.obj [("updated", JsVal.bool true),
         ("deployment", JsVal.obj
           [("id", JsVal.str "abc123"), ("name", JsVal.str "Test API")])])])) =
      Except.ok (mapDeployment (JsVal.obj
        [("id", JsVal.str "abc123"), ("name", JsVal.str "Test API")])) ∧
    (mapDeployment (JsVal.obj
      [("id", JsVal.str "abc123"), ("name", JsVal.str "Test API")])).id = some "abc123" ∧
    (mapDeployment (JsVal.obj
      [("id", JsVal.str "abc123"), ("name", JsVal.str "Test API")])).url =
      "http://localhost:3000/mcp/" ++ "abc123" ∧
    (mapDeployment (JsVal.obj
      [("id", JsVal.str "abc123"), ("name", JsVal.str "Test API")])).createdAt =
      DateValue.now :=
  c9_success_mapping _ _ _ "abc123" 200 rfl rfl rfl rfl rfl rfl rfl
